import Mathlib

/-!
Shallow embedding of the query-answering pipeline of `src/answerer.py`:
retrieval from the vector store over HTTP, context assembly, grounded
answer generation via an LLM service, and the orchestrator
`get_compliance_answer`.

The two external services are modelled as oracle parameters: `http` maps
the question and `top_k` to the observable outcome of the POST to the
vector store, and `llm` maps the fully built chat request to the outcome
of the completion call.  Python dictionaries whose keys may be absent are
modelled with `Option` fields, and Python exceptions as `Except PyError`:
a function that may raise returns `Except.error` for the raised exception.
-/

namespace ComplianceAnswerer

/-- Configured endpoint of the Pathway VectorStoreServer: the default value
of `VECTOR_STORE_URL` in `answerer.py`. -/
def VECTOR_STORE_URL : String := "http://127.0.0.1:8000/v1/retrieve"

/-- Number of document chunks retrieved per query: the default value of
`TOP_K` in `answerer.py`. -/
def TOP_K : Nat := 3

/-- Groq model identifier (`GROQ_MODEL` in `answerer.py`). -/
def GROQ_MODEL : String := "llama-3.3-70b-versatile"

/-- LLM sampling temperature (`LLM_TEMPERATURE = 0.1` in `answerer.py`). -/
def LLM_TEMPERATURE : Rat := 1 / 10

/-- System prompt establishing the compliance-officer persona
(`SYSTEM_PROMPT` in `answerer.py`, verbatim). -/
def SYSTEM_PROMPT : String :=
  "You are a Senior Financial Audit & Compliance Officer with deep expertise "
    ++ "in regulatory frameworks (Basel III/IV, SEC, GDPR, SEBI, FINRA). "
    ++ "Your role is to analyze provided regulatory context and answer compliance "
    ++ "questions with precision and professionalism.\n\n"
    ++ "Guidelines:\n"
    ++ "- Base all answers strictly on the provided context. Do not speculate.\n"
    ++ "- Bold key thresholds, percentages, and deadlines using **markdown**.\n"
    ++ "- If the context is insufficient to answer, state this clearly.\n"
    ++ "- Cite specific document sections or regulation numbers where visible.\n"
    ++ "- Flag any contradictions or ambiguities between source documents.\n"
    ++ "- Use formal, jurisdiction-appropriate language throughout."

/-- The `metadata` mapping of a retrieved chunk.  The `name` key may be
absent, modelling a Python dict without it. -/
structure RawMetadata where
  name : Option String
deriving DecidableEq

/-- A retrieved chunk as the Python dict the vector store returns: each of
the keys `text`, `dist` and `metadata` may be absent. -/
structure RawChunk where
  text : Option String
  dist : Option Rat
  metadata : Option RawMetadata
deriving DecidableEq

/-- The Python exceptions the pipeline raises or catches: `KeyError` from a
missing dict key, the `ConnectionError` and `ValueError` raised by
`retrieve_context`, and an exception from the LLM client call. -/
inductive PyError where
  | keyError (key : String)
  | connectionError (msg : String)
  | valueError (msg : String)
  | llmError (msg : String)
deriving DecidableEq

/-- Result of Python `str(e)` on a caught exception, as used in the error
branches of `get_compliance_answer`.  The quoting Python adds around a
`KeyError` key is immaterial here: the pipeline never stringifies a
`KeyError` (it always propagates uncaught). -/
def PyError.str : PyError → String
  | .keyError k => k
  | .connectionError m => m
  | .valueError m => m
  | .llmError m => m

/-- The decoded JSON body of a 2xx retrieval response: either a JSON array
of chunk objects, or any other JSON value carried as its printed form (the
form interpolated into the error message at `answerer.py` line 113). -/
inductive Payload where
  | list (chunks : List RawChunk)
  | other (raw : String)
deriving DecidableEq

/-- Observable outcome of the HTTP POST to the vector store: exactly the
cases `retrieve_context` distinguishes at `answerer.py` lines 98-115. -/
inductive RetrievalOutcome where
  | connectionFailure
  | timeout
  | httpError (detail : String)
  | response (payload : Payload)
deriving DecidableEq

/-- Embedding of `retrieve_context` (`answerer.py` lines 80-115).  The HTTP
layer is the oracle `http`; the three transport failures are re-raised as
`ConnectionError` or `ValueError` with the messages of lines 102-110, a
non-list payload raises the `ValueError` of line 113, and a list payload is
returned as is. -/
def retrieve_context (http : String → Nat → RetrievalOutcome) (question : String)
    (top_k : Nat) : Except PyError (List RawChunk) :=
  match http question top_k with
  | .connectionFailure =>
      .error (.connectionError ("Cannot reach VectorStoreServer at "
        ++ VECTOR_STORE_URL ++ ". Ensure main.py is running."))
  | .timeout =>
      .error (.connectionError "VectorStoreServer request timed out after 10 seconds.")
  | .httpError detail =>
      .error (.valueError ("VectorStoreServer returned an error: " ++ detail))
  | .response (.list chunks) => .ok chunks
  | .response (.other raw) =>
      .error (.valueError ("Unexpected response format from vector store: " ++ raw))

/-- The per-chunk lookups `chunk["text"]` performed by the generator inside
`build_context_string`: the first chunk without a `text` key raises
`KeyError`. -/
def collectTexts : List RawChunk → Except PyError (List String)
  | [] => .ok []
  | c :: rest =>
    match c.text with
    | none => .error (.keyError "text")
    | some t =>
      match collectTexts rest with
      | .error e => .error e
      | .ok ts => .ok (t :: ts)

/-- Embedding of `build_context_string` (`answerer.py` lines 118-129):
join the chunk texts with blank-line separators; a chunk without a `text`
key raises `KeyError`. -/
def build_context_string (chunks : List RawChunk) : Except PyError String :=
  match collectTexts chunks with
  | .error e => .error e
  | .ok ts => .ok (String.intercalate "\n\n" ts)

/-- The lookup `chunk["metadata"]["name"]`: a missing `metadata` key raises
first, then a missing `name` key. -/
def chunkName (c : RawChunk) : Except PyError String :=
  match c.metadata with
  | none => .error (.keyError "metadata")
  | some m =>
    match m.name with
    | none => .error (.keyError "name")
    | some n => .ok n

/-- The per-chunk lookups performed by the set comprehension inside
`extract_sources`. -/
def collectNames : List RawChunk → Except PyError (List String)
  | [] => .ok []
  | c :: rest =>
    match chunkName c with
    | .error e => .error e
    | .ok n =>
      match collectNames rest with
      | .error e => .error e
      | .ok ns => .ok (n :: ns)

/-- Embedding of `extract_sources` (`answerer.py` lines 132-142):
`list({chunk["metadata"]["name"] for chunk in chunks})`.  Python set
iteration order is unspecified, so the set-then-list conversion is
modelled as `List.dedup` of the name list. -/
def extract_sources (chunks : List RawChunk) : Except PyError (List String) :=
  match collectNames chunks with
  | .error e => .error e
  | .ok ns => .ok ns.dedup

/-- One chat message of the completion request. -/
structure Message where
  role : String
  content : String
deriving DecidableEq

/-- The completion request `generate_compliance_response` builds at
`answerer.py` lines 157-173: model, temperature and role-tagged messages. -/
structure LLMRequest where
  model : String
  temperature : Rat
  messages : List Message
deriving DecidableEq

/-- Observable outcome of the completion call: the returned completion
text, or a raised transport or service exception carried as its detail. -/
inductive LLMOutcome where
  | success (content : String)
  | failure (detail : String)
deriving DecidableEq

/-- The user message content of `answerer.py` lines 167-170. -/
def userContent (question context : String) : String :=
  "RETRIEVED CONTEXT:\n" ++ context ++ "\n\n" ++ "COMPLIANCE QUESTION: " ++ question

/-- The full completion request of `answerer.py` lines 157-173. -/
def llmRequest (question context : String) : LLMRequest :=
  ⟨GROQ_MODEL, LLM_TEMPERATURE,
    [⟨"system", SYSTEM_PROMPT⟩, ⟨"user", userContent question context⟩]⟩

/-- Embedding of `generate_compliance_response` (`answerer.py` lines
145-174).  The function body contains no exception handler: a failing
completion call raises, i.e. returns `Except.error` here. -/
def generate_compliance_response (llm : LLMRequest → LLMOutcome)
    (question context : String) : Except PyError String :=
  match llm (llmRequest question context) with
  | .success content => .ok content
  | .failure detail => .error (.llmError detail)

/-- Embedding of `get_compliance_answer` (`answerer.py` lines 177-207).
The first `try` catches `ConnectionError` and `ValueError` from retrieval
and returns `(None, str(e), [])`; `build_context_string` and
`extract_sources` run outside any handler, so their `KeyError` propagates
(an `Except.error` result); the second `try` catches any exception from
generation and returns `(chunks, "LLM error: " + str(e), sources)`. -/
def get_compliance_answer (http : String → Nat → RetrievalOutcome)
    (llm : LLMRequest → LLMOutcome) (question : String) :
    Except PyError (Option (List RawChunk) × String × List String) :=
  match retrieve_context http question TOP_K with
  | .error e => .ok (none, e.str, [])
  | .ok chunks =>
    match build_context_string chunks with
    | .error e => .error e
    | .ok context =>
      match extract_sources chunks with
      | .error e => .error e
      | .ok sources =>
        match generate_compliance_response llm question context with
        | .error e => .ok (some chunks, "LLM error: " ++ e.str, sources)
        | .ok answer => .ok (some chunks, answer, sources)

/-!
Specification-side description of the join: one `"\n\n"` separator is
inserted between each adjacent pair of texts, hence `n - 1` separators for
`n` texts and the empty string for no texts.
-/

/-- Tail of a separator join: one separator prepended before every
remaining text. -/
def sepTail (s : String) : List String → String
  | [] => ""
  | t :: ts => s ++ t ++ sepTail s ts

/-- The join as the specification words it: texts in input order, one
blank-line separator between each adjacent pair (`n - 1` separators for
`n` texts), empty string for the empty sequence. -/
def sepJoin : List String → String
  | [] => ""
  | [t] => t
  | t :: u :: ts => t ++ "\n\n" ++ sepJoin (u :: ts)

theorem intercalate_go_eq (s : String) :
    ∀ (ts : List String) (acc : String),
      String.intercalate.go acc s ts = acc ++ sepTail s ts
  | [], acc => by
    simp [String.intercalate.go, sepTail]
  | t :: ts, acc => by
    rw [String.intercalate.go, intercalate_go_eq s ts (acc ++ s ++ t), sepTail]
    simp [String.append_assoc]

theorem intercalate_eq_sepJoin :
    ∀ ts : List String, String.intercalate "\n\n" ts = sepJoin ts
  | [] => rfl
  | [t] => by
    rw [String.intercalate, intercalate_go_eq, sepTail, String.append_empty, sepJoin]
  | t :: u :: ts => by
    rw [String.intercalate, intercalate_go_eq, sepTail, sepJoin,
      ← intercalate_eq_sepJoin (u :: ts), String.intercalate, intercalate_go_eq]
    simp [String.append_assoc]

/-- A chunk dict that carries the keys the pipeline reads: `text` and
`metadata` with a `name` inside, the shape `retrieve_context` documents
for the elements of a well-formed vector-store response. -/
def RawChunk.wellFormed (c : RawChunk) : Bool :=
  c.text.isSome &&
    match c.metadata with
    | some m => m.name.isSome
    | none => false

theorem collectTexts_ok :
    ∀ chunks : List RawChunk, (∀ c ∈ chunks, c.wellFormed = true) →
      ∃ ts : List String, collectTexts chunks = .ok ts ∧ ts.length = chunks.length
  | [], _ => ⟨[], rfl, rfl⟩
  | c :: rest, h => by
    have hc : c.wellFormed = true := h c (List.mem_cons_self c rest)
    have htext : c.text.isSome := by
      unfold RawChunk.wellFormed at hc
      exact (Bool.and_eq_true_iff.mp hc).1
    obtain ⟨t, ht⟩ := Option.isSome_iff_exists.mp htext
    obtain ⟨ts, hts, hlen⟩ :=
      collectTexts_ok rest (fun x hx => h x (List.mem_cons_of_mem c hx))
    exact ⟨t :: ts, by rw [collectTexts, ht, hts], by simp [hlen]⟩

theorem collectNames_ok :
    ∀ chunks : List RawChunk, (∀ c ∈ chunks, c.wellFormed = true) →
      ∃ ns : List String, collectNames chunks = .ok ns ∧ ns.length = chunks.length
  | [], _ => ⟨[], rfl, rfl⟩
  | c :: rest, h => by
    have hc : c.wellFormed = true := h c (List.mem_cons_self c rest)
    unfold RawChunk.wellFormed at hc
    have hmeta := (Bool.and_eq_true_iff.mp hc).2
    obtain ⟨m, hm⟩ : ∃ m, c.metadata = some m := by
      cases hmd : c.metadata with
      | none => rw [hmd] at hmeta; exact absurd hmeta (by simp)
      | some m => exact ⟨m, rfl⟩
    rw [hm] at hmeta
    obtain ⟨n, hn⟩ := Option.isSome_iff_exists.mp hmeta
    obtain ⟨ns, hns, hlen⟩ :=
      collectNames_ok rest (fun x hx => h x (List.mem_cons_of_mem c hx))
    exact ⟨n :: ns, by simp only [collectNames, chunkName, hm, hn, hns], by simp [hlen]⟩

theorem collectNames_length :
    ∀ (chunks : List RawChunk) (ns : List String),
      collectNames chunks = .ok ns → ns.length = chunks.length
  | [], ns, h => by
    simp only [collectNames] at h
    cases h
    rfl
  | c :: rest, ns, h => by
    simp only [collectNames] at h
    cases hc : chunkName c with
    | error e => rw [hc] at h; cases h
    | ok n =>
      rw [hc] at h
      cases hrest : collectNames rest with
      | error e => rw [hrest] at h; cases h
      | ok ms =>
        rw [hrest] at h
        cases h
        simp [collectNames_length rest ms hrest]

/-- Shared run of the orchestrator when retrieval and context assembly
succeed and the LLM call fails: the `except Exception` branch of
`get_compliance_answer` returns the evidence with an error-marked answer. -/
theorem run_with_llm_failure (http : String → Nat → RetrievalOutcome)
    (llm : LLMRequest → LLMOutcome) (question context detail : String)
    (chunks : List RawChunk) (sources : List String)
    (hr : retrieve_context http question TOP_K = .ok chunks)
    (hb : build_context_string chunks = .ok context)
    (hs : extract_sources chunks = .ok sources)
    (hl : llm (llmRequest question context) = .failure detail) :
    get_compliance_answer http llm question
      = .ok (some chunks, "LLM error: " ++ detail, sources) := by
  simp only [get_compliance_answer, hr, hb, hs, generate_compliance_response, hl,
    PyError.str]

/-- C4: `build_context_string` applied to the empty chunk sequence returns
the empty string, and applied to a sequence whose texts are `ts` returns
those texts joined in input order with exactly one blank-line separator
between each adjacent pair, i.e. `n - 1` separators for `n` chunks. -/
theorem build_context_string_joins_with_separators :
    build_context_string [] = .ok "" ∧
    ∀ (chunks : List RawChunk) (ts : List String),
      collectTexts chunks = .ok ts →
      build_context_string chunks = .ok (sepJoin ts) := by
  refine ⟨rfl, fun chunks ts h => ?_⟩
  simp only [build_context_string, h, intercalate_eq_sepJoin]

/-- Witness for C4 on a concrete two-chunk input. -/
theorem build_context_string_joins_witness :
    collectTexts [⟨some "alpha", none, none⟩, ⟨some "beta", none, none⟩]
        = .ok ["alpha", "beta"] ∧
    build_context_string [⟨some "alpha", none, none⟩, ⟨some "beta", none, none⟩]
        = .ok (sepJoin ["alpha", "beta"]) :=
  ⟨rfl, build_context_string_joins_with_separators.2 _ _ rfl⟩

/-- C5: when every chunk carries `metadata.name` (the name lookups yield
`ns`), `extract_sources` returns a duplicate-free collection whose size is
at most the chunk count and equals the number of distinct name values. -/
theorem extract_sources_dedups (chunks : List RawChunk) (ns : List String)
    (h : collectNames chunks = .ok ns) :
    extract_sources chunks = .ok ns.dedup ∧ ns.dedup.Nodup ∧
      ns.dedup.length ≤ chunks.length ∧ ns.dedup.length = ns.toFinset.card := by
  refine ⟨by simp only [extract_sources, h], List.nodup_dedup ns, ?_,
    (List.card_toFinset ns).symm⟩
  calc ns.dedup.length ≤ ns.length := (List.dedup_sublist ns).length_le
    _ = chunks.length := collectNames_length chunks ns h

/-- Witness for C5 on two chunks naming the same source document. -/
theorem extract_sources_dedups_witness :
    collectNames [⟨some "a", none, some ⟨some "doc.pdf"⟩⟩,
        ⟨some "b", none, some ⟨some "doc.pdf"⟩⟩] = .ok ["doc.pdf", "doc.pdf"] ∧
    (extract_sources [⟨some "a", none, some ⟨some "doc.pdf"⟩⟩,
          ⟨some "b", none, some ⟨some "doc.pdf"⟩⟩]
        = .ok (["doc.pdf", "doc.pdf"] : List String).dedup ∧
      (["doc.pdf", "doc.pdf"] : List String).dedup.Nodup ∧
      (["doc.pdf", "doc.pdf"] : List String).dedup.length ≤ 2 ∧
      (["doc.pdf", "doc.pdf"] : List String).dedup.length
        = (["doc.pdf", "doc.pdf"] : List String).toFinset.card) :=
  ⟨rfl, extract_sources_dedups _ _ rfl⟩

/-- C2: whenever retrieval raises (service unreachable, timeout, non-2xx
status and non-list payload are its only failure modes),
`get_compliance_answer` returns exactly `(none, str(e), [])`.  The
conclusion holds for every `llm` oracle, so no answer generation is
attempted. -/
theorem retrieval_failure_yields_none_triple (http : String → Nat → RetrievalOutcome)
    (llm : LLMRequest → LLMOutcome) (question : String) (e : PyError)
    (h : retrieve_context http question TOP_K = .error e) :
    get_compliance_answer http llm question = .ok (none, e.str, []) := by
  simp only [get_compliance_answer, h]

/-- Witness for C2 with an unreachable service. -/
theorem retrieval_failure_yields_none_triple_witness :
    retrieve_context (fun _ _ => .connectionFailure) "q" TOP_K
        = .error (.connectionError ("Cannot reach VectorStoreServer at "
            ++ VECTOR_STORE_URL ++ ". Ensure main.py is running.")) ∧
    get_compliance_answer (fun _ _ => .connectionFailure) (fun _ => .success "a") "q"
        = .ok (none, (PyError.connectionError ("Cannot reach VectorStoreServer at "
            ++ VECTOR_STORE_URL ++ ". Ensure main.py is running.")).str, []) :=
  ⟨rfl, retrieval_failure_yields_none_triple _ _ _ _ rfl⟩

/-- C6: when the retrieval request times out, the error branch is taken
and the result is `(none, msg, [])` where `msg` mentions the timeout. -/
theorem timeout_yields_timeout_message (http : String → Nat → RetrievalOutcome)
    (llm : LLMRequest → LLMOutcome) (question : String)
    (h : http question TOP_K = .timeout) :
    get_compliance_answer http llm question
        = .ok (none, "VectorStoreServer request timed out after 10 seconds.", []) ∧
    ∃ pre post, "VectorStoreServer request timed out after 10 seconds."
        = pre ++ "timed out" ++ post := by
  refine ⟨?_, "VectorStoreServer request ", " after 10 seconds.", rfl⟩
  simp only [get_compliance_answer, retrieve_context, h, PyError.str]

/-- Witness for C6. -/
theorem timeout_yields_timeout_message_witness :
    (fun (_ : String) (_ : Nat) => RetrievalOutcome.timeout) "q" TOP_K
        = RetrievalOutcome.timeout ∧
    (get_compliance_answer (fun _ _ => .timeout) (fun _ => .success "a") "q"
        = .ok (none, "VectorStoreServer request timed out after 10 seconds.", []) ∧
      ∃ pre post, "VectorStoreServer request timed out after 10 seconds."
        = pre ++ "timed out" ++ post) :=
  ⟨rfl, timeout_yields_timeout_message _ _ _ rfl⟩

/-- C7: when the service responds with a payload that is not a JSON array,
the result is `(none, msg, [])` where `msg` contains the raw payload. -/
theorem non_list_payload_yields_raw_message (http : String → Nat → RetrievalOutcome)
    (llm : LLMRequest → LLMOutcome) (question raw : String)
    (h : http question TOP_K = .response (.other raw)) :
    get_compliance_answer http llm question
        = .ok (none, "Unexpected response format from vector store: " ++ raw, []) ∧
    ∃ pre post, "Unexpected response format from vector store: " ++ raw
        = pre ++ raw ++ post := by
  refine ⟨?_, "Unexpected response format from vector store: ", "",
    by rw [String.append_empty]⟩
  simp only [get_compliance_answer, retrieve_context, h, PyError.str]

/-- Witness for C7 with a JSON object payload. -/
theorem non_list_payload_yields_raw_message_witness :
    (fun (_ : String) (_ : Nat) =>
        RetrievalOutcome.response (Payload.other "null")) "q" TOP_K
        = RetrievalOutcome.response (Payload.other "null") ∧
    (get_compliance_answer (fun _ _ => .response (.other "null"))
          (fun _ => .success "a") "q"
        = .ok (none, "Unexpected response format from vector store: " ++ "null", []) ∧
      ∃ pre post, "Unexpected response format from vector store: " ++ "null"
        = pre ++ "null" ++ post) :=
  ⟨rfl, non_list_payload_yields_raw_message _ _ _ _ rfl⟩

/-- The one-chunk retrieval result of the end-to-end scenario in the spec. -/
def baselChunk : RawChunk :=
  ⟨some "Banks must maintain a minimum CET1 ratio of 4.5%.", some (1 / 10),
    some ⟨some "basel_iii.pdf"⟩⟩

/-- C1 counterexample: a list payload whose single element lacks the
`text` key makes `get_compliance_answer` raise an uncaught `KeyError`
(`build_context_string` runs outside both `try` blocks), so the claim
that no exception ever propagates regardless of the retrieval payload is
false. -/
theorem missing_text_key_raises :
    get_compliance_answer
        (fun _ _ => .response (.list [⟨none, none, none⟩]))
        (fun _ => .success "answer") "q"
      = .error (.keyError "text") := rfl

/-- C1 amended: for every question, `get_compliance_answer` returns a
`(chunks_or_none, answer, sources)` triple with no exception escaping,
for every outcome of the retrieval and LLM services — provided that when
retrieval yields a list, every element carries the `text` and
`metadata.name` keys. -/
theorem get_compliance_answer_total_of_wellFormed
    (http : String → Nat → RetrievalOutcome) (llm : LLMRequest → LLMOutcome)
    (question : String)
    (hwf : ∀ chunks, http question TOP_K = .response (.list chunks) →
      ∀ c ∈ chunks, c.wellFormed = true) :
    ∃ result, get_compliance_answer http llm question = .ok result := by
  cases hh : http question TOP_K with
  | connectionFailure =>
    have h : get_compliance_answer http llm question
        = .ok (none, (PyError.connectionError ("Cannot reach VectorStoreServer at "
          ++ VECTOR_STORE_URL ++ ". Ensure main.py is running.")).str, []) := by
      simp only [get_compliance_answer, retrieve_context, hh]
    exact ⟨_, h⟩
  | timeout =>
    have h : get_compliance_answer http llm question
        = .ok (none, (PyError.connectionError
          "VectorStoreServer request timed out after 10 seconds.").str, []) := by
      simp only [get_compliance_answer, retrieve_context, hh]
    exact ⟨_, h⟩
  | httpError d =>
    have h : get_compliance_answer http llm question
        = .ok (none, (PyError.valueError
          ("VectorStoreServer returned an error: " ++ d)).str, []) := by
      simp only [get_compliance_answer, retrieve_context, hh]
    exact ⟨_, h⟩
  | response p =>
    cases p with
    | other raw =>
      have h : get_compliance_answer http llm question
          = .ok (none, (PyError.valueError
            ("Unexpected response format from vector store: " ++ raw)).str, []) := by
        simp only [get_compliance_answer, retrieve_context, hh]
      exact ⟨_, h⟩
    | list chunks =>
      have hwfc := hwf chunks hh
      obtain ⟨ts, hts, _⟩ := collectTexts_ok chunks hwfc
      obtain ⟨ns, hns, _⟩ := collectNames_ok chunks hwfc
      have hr : retrieve_context http question TOP_K = .ok chunks := by
        simp only [retrieve_context, hh]
      have hb : build_context_string chunks
          = .ok (String.intercalate "\n\n" ts) := by
        simp only [build_context_string, hts]
      have hs : extract_sources chunks = .ok ns.dedup := by
        simp only [extract_sources, hns]
      cases hl : llm (llmRequest question (String.intercalate "\n\n" ts)) with
      | success content =>
        have h : get_compliance_answer http llm question
            = .ok (some chunks, content, ns.dedup) := by
          simp only [get_compliance_answer, hr, hb, hs,
            generate_compliance_response, hl]
        exact ⟨_, h⟩
      | failure detail =>
        have h : get_compliance_answer http llm question
            = .ok (some chunks, "LLM error: " ++ detail, ns.dedup) := by
          simp only [get_compliance_answer, hr, hb, hs,
            generate_compliance_response, hl, PyError.str]
        exact ⟨_, h⟩

/-- Witness for the amended C1 on a well-formed one-chunk response. -/
theorem get_compliance_answer_total_witness :
    (∀ chunks,
        (fun (_ : String) (_ : Nat) =>
            RetrievalOutcome.response (Payload.list [baselChunk])) "q" TOP_K
          = RetrievalOutcome.response (Payload.list chunks) →
        ∀ c ∈ chunks, c.wellFormed = true) ∧
    ∃ result, get_compliance_answer
        (fun _ _ => .response (.list [baselChunk]))
        (fun _ => .success "answer") "q" = .ok result := by
  have h : ∀ chunks,
      (fun (_ : String) (_ : Nat) =>
          RetrievalOutcome.response (Payload.list [baselChunk])) "q" TOP_K
        = RetrievalOutcome.response (Payload.list chunks) →
      ∀ c ∈ chunks, c.wellFormed = true := by
    intro chunks heq
    cases heq
    intro c hc
    rw [List.mem_singleton] at hc
    subst hc
    rfl
  exact ⟨h, get_compliance_answer_total_of_wellFormed _ _ _ h⟩

/-- C3: when retrieval succeeds and the LLM call then fails, the result
keeps the retrieved chunk list unchanged, the answer text starts with the
"LLM error" marker, and the sources are those extracted from the
chunks. -/
theorem generation_failure_preserves_evidence
    (http : String → Nat → RetrievalOutcome) (llm : LLMRequest → LLMOutcome)
    (question context detail : String) (chunks : List RawChunk)
    (sources : List String)
    (hr : retrieve_context http question TOP_K = .ok chunks)
    (hb : build_context_string chunks = .ok context)
    (hs : extract_sources chunks = .ok sources)
    (hl : llm (llmRequest question context) = .failure detail) :
    get_compliance_answer http llm question
        = .ok (some chunks, "LLM error: " ++ detail, sources) ∧
    ∃ rest, "LLM error: " ++ detail = "LLM error" ++ rest := by
  refine ⟨run_with_llm_failure http llm question context detail chunks sources
    hr hb hs hl, ": " ++ detail, ?_⟩
  have hsplit : "LLM error: " = "LLM error" ++ ": " := rfl
  rw [hsplit, String.append_assoc]

/-- Witness for C3 on the one-chunk scenario with a failing LLM call. -/
theorem generation_failure_preserves_evidence_witness :
    retrieve_context (fun _ _ => .response (.list [baselChunk])) "q" TOP_K
        = .ok [baselChunk] ∧
    build_context_string [baselChunk]
        = .ok "Banks must maintain a minimum CET1 ratio of 4.5%." ∧
    extract_sources [baselChunk] = .ok ["basel_iii.pdf"] ∧
    (fun (_ : LLMRequest) => LLMOutcome.failure "boom")
        (llmRequest "q" "Banks must maintain a minimum CET1 ratio of 4.5%.")
        = .failure "boom" ∧
    (get_compliance_answer (fun _ _ => .response (.list [baselChunk]))
          (fun _ => .failure "boom") "q"
        = .ok (some [baselChunk], "LLM error: " ++ "boom", ["basel_iii.pdf"]) ∧
      ∃ rest, "LLM error: " ++ "boom" = "LLM error" ++ rest) :=
  ⟨rfl, rfl, rfl, rfl,
    generation_failure_preserves_evidence _ _ _ _ _ _ _ rfl rfl rfl rfl⟩

/-- C8: end-to-end scenario of the spec — retrieval returns exactly the
one Basel chunk and generation returns a fixed string; the orchestrator
returns that chunk list, the fixed string, and `["basel_iii.pdf"]`. -/
theorem end_to_end_basel_scenario (question answer : String) :
    get_compliance_answer (fun _ _ => .response (.list [baselChunk]))
        (fun _ => .success answer) question
      = .ok (some [baselChunk], answer, ["basel_iii.pdf"]) := rfl

/-- C9 counterexample: `generate_compliance_response` contains no
exception handler, so a failing LLM call makes it raise to its caller
rather than return an error-marked answer string. -/
theorem generate_response_error_escapes :
    generate_compliance_response (fun _ => .failure "service down") "q" ""
      = .error (.llmError "service down") := rfl

/-- C9 amended: an LLM-call failure propagates out of
`generate_compliance_response` to its caller, and it is
`get_compliance_answer` that catches it and converts it into an answer
string prefixed with the "LLM error" marker; the pipeline as a whole does
not raise for LLM failures. -/
theorem llm_failure_caught_in_orchestrator
    (http : String → Nat → RetrievalOutcome) (llm : LLMRequest → LLMOutcome)
    (question context detail : String) (chunks : List RawChunk)
    (sources : List String)
    (hr : retrieve_context http question TOP_K = .ok chunks)
    (hb : build_context_string chunks = .ok context)
    (hs : extract_sources chunks = .ok sources)
    (hl : llm (llmRequest question context) = .failure detail) :
    generate_compliance_response llm question context
        = .error (.llmError detail) ∧
    ∃ rest, get_compliance_answer http llm question
        = .ok (some chunks, "LLM error" ++ rest, sources) := by
  refine ⟨by simp only [generate_compliance_response, hl], ": " ++ detail, ?_⟩
  rw [run_with_llm_failure http llm question context detail chunks sources
    hr hb hs hl]
  have hsplit : "LLM error: " = "LLM error" ++ ": " := rfl
  rw [hsplit, String.append_assoc]

/-- Witness for the amended C9. -/
theorem llm_failure_caught_in_orchestrator_witness :
    retrieve_context (fun _ _ => .response (.list [baselChunk])) "q" TOP_K
        = .ok [baselChunk] ∧
    build_context_string [baselChunk]
        = .ok "Banks must maintain a minimum CET1 ratio of 4.5%." ∧
    extract_sources [baselChunk] = .ok ["basel_iii.pdf"] ∧
    (fun (_ : LLMRequest) => LLMOutcome.failure "down")
        (llmRequest "q" "Banks must maintain a minimum CET1 ratio of 4.5%.")
        = .failure "down" ∧
    (generate_compliance_response (fun _ => .failure "down") "q"
          "Banks must maintain a minimum CET1 ratio of 4.5%."
        = .error (.llmError "down") ∧
      ∃ rest, get_compliance_answer (fun _ _ => .response (.list [baselChunk]))
          (fun _ => .failure "down") "q"
        = .ok (some [baselChunk], "LLM error" ++ rest, ["basel_iii.pdf"])) :=
  ⟨rfl, rfl, rfl, rfl,
    llm_failure_caught_in_orchestrator _ _ _ _ _ _ _ rfl rfl rfl rfl⟩

/-- C10: a successful retrieval with an empty chunk list is treated as
success — generation is still invoked, with the empty context string, and
the result is `(some [], answer, [])`, whose first element is the empty
list rather than `none`, so the caller's chunks-is-none test reports
success. -/
theorem empty_chunk_list_is_success
    (http : String → Nat → RetrievalOutcome) (llm : LLMRequest → LLMOutcome)
    (question answer : String)
    (hr : http question TOP_K = .response (.list []))
    (hl : llm (llmRequest question "") = .success answer) :
    build_context_string [] = .ok "" ∧
    get_compliance_answer http llm question = .ok (some [], answer, []) := by
  refine ⟨rfl, ?_⟩
  have hr2 : retrieve_context http question TOP_K = .ok [] := by
    simp only [retrieve_context, hr]
  simp only [get_compliance_answer, hr2, build_context_string, collectTexts,
    String.intercalate, extract_sources, collectNames, List.dedup_nil,
    generate_compliance_response, hl]

/-- Witness for C10. -/
theorem empty_chunk_list_is_success_witness :
    (fun (_ : String) (_ : Nat) =>
        RetrievalOutcome.response (Payload.list [])) "q" TOP_K
        = RetrievalOutcome.response (Payload.list []) ∧
    (fun (_ : LLMRequest) => LLMOutcome.success "no evidence")
        (llmRequest "q" "") = .success "no evidence" ∧
    (build_context_string [] = .ok "" ∧
      get_compliance_answer (fun _ _ => .response (.list []))
          (fun _ => .success "no evidence") "q"
        = .ok (some [], "no evidence", [])) :=
  ⟨rfl, rfl, empty_chunk_list_is_success _ _ _ _ rfl rfl⟩

end ComplianceAnswerer
